import Mathlib

/-!
Verification of the thumbnail-generator repository (src/main.py, src/server.py).

The Python code manipulates JSON/YAML data as loosely-typed dictionaries; we
embed those values as the inductive type `Json` below.  JSON numbers are
carried as their printed decimal form (the only use the code makes of a
number is interpolating `str(n)` into an HTML string).  Fallible dictionary
accesses (`d["k"]`, which raises `KeyError` / `TypeError`) are embedded as
`Except String`; an `Except.error` models a raised Python exception.
-/

inductive Json where
  | null
  | bool (b : Bool)
  | num (s : String)
  | str (s : String)
  | arr (items : List Json)
  | obj (fields : List (String × Json))

mutual
/-- Python `repr` of a scalar JSON value (nested composites rendered
structurally; quoting inside nested strings is not escaped, which no code
path of the repository depends on). -/
def pyRepr : Json → String
  | .null => "None"
  | .bool true => "True"
  | .bool false => "False"
  | .num s => s
  | .str s => "\x27" ++ s ++ "\x27"
  | .arr xs => "[" ++ pyReprList xs ++ "]"
  | .obj kvs => "\x7b" ++ pyReprFields kvs ++ "\x7d"

def pyReprList : List Json → String
  | [] => ""
  | [x] => pyRepr x
  | x :: y :: xs => pyRepr x ++ ", " ++ pyReprList (y :: xs)

def pyReprFields : List (String × Json) → String
  | [] => ""
  | [kv] => "\x27" ++ kv.1 ++ "\x27: " ++ pyRepr kv.2
  | kv :: kw :: kvs => "\x27" ++ kv.1 ++ "\x27: " ++ pyRepr kv.2 ++ ", " ++ pyReprFields (kw :: kvs)
end

/-- Python `str()` of a JSON value, as used by f-string interpolation. -/
def pyStr : Json → String
  | .str s => s
  | j => pyRepr j

/-- Dictionary lookup `d.get(k)`: `none` when the key is absent or the value
is not a dict. -/
def Json.getKey : Json → String → Option Json
  | .obj kvs, k => (kvs.find? (fun kv => kv.1 == k)).map (fun kv => kv.2)
  | _, _ => none

/-- Subscript access `d[k]`: raises `KeyError` when the key is absent and
`TypeError` when the value is not a dict (as for a list or string indexed
by a string key). -/
def getItem : Json → String → Except String Json
  | .obj kvs, k =>
    match (kvs.find? (fun kv => kv.1 == k)).map (fun kv => kv.2) with
    | some v => .ok v
    | none => .error ("KeyError: " ++ k)
  | _, k => .error ("TypeError: value is not subscriptable by " ++ k)

/-- Dictionary lookup with default, `d.get(k, dflt)`. -/
def Json.getD (j : Json) (k : String) (dflt : Json) : Json :=
  (Json.getKey j k).getD dflt

/-- Python truthiness of a value. -/
def Json.truthy : Json → Bool
  | .null => false
  | .bool b => b
  | .num s => !(s == "0" || s == "0.0" || s == "-0")
  | .str s => !(s == "")
  | .arr xs => !xs.isEmpty
  | .obj kvs => !kvs.isEmpty

/-- Truthiness of `d.get(k)` (absent key is `None`, hence falsy). -/
def Json.optTruthy : Option Json → Bool
  | none => false
  | some j => Json.truthy j

/-- Python iteration `for el in v`: a list yields its items, a string its
characters, a dict its keys; scalars raise `TypeError`. -/
def pyIter : Json → Except String (List Json)
  | .arr xs => .ok xs
  | .str s => .ok (s.data.map (fun c => Json.str (String.mk [c])))
  | .obj kvs => .ok (kvs.map (fun kv => Json.str kv.1))
  | _ => .error "TypeError: object is not iterable"

/-- Python `s.startswith(pre)` (over the character lists, so that it
computes by kernel reduction). -/
def strStarts (s pre : String) : Bool := pre.data.isPrefixOf s.data

/-- Python `c in s` for a single character. -/
def strContains (s : String) (c : Char) : Bool := s.data.contains c

/-- The pathlib join `base / name`: an absolute right operand replaces the
base, an empty right operand keeps it. -/
def pyJoin (base name : String) : String :=
  if name == "" then base
  else if strStarts name "/" then name
  else base ++ "/" ++ name

/-- The directory containing server.py (`Path(__file__).parent`), modelled
as a fixed absolute directory. -/
def BASE_DIR : String := "/srv/app"

def ASSETS_DIR : String := BASE_DIR ++ "/assets"

def EDITOR_DIR : String := BASE_DIR ++ "/editor"

/-! ## server.py: generate_thumbnail_from_template -/

/-- The literal HTML of server.py lines 40-75 up to the interpolation of
`canvas['width']`. -/
def htmlHead1 : String :=
  "<!DOCTYPE html>\n<html>\n<head>\n    <meta charset=\"UTF-8\">\n    <link href=\"https://fonts.googleapis.com/css2?family=Inter:wght@400;600;700;800;900&display=swap\" rel=\"stylesheet\">\n    <style>\n        * \x7b margin: 0; padding: 0; box-sizing: border-box; \x7d\n        body \x7b\n            width: "

/-- Between `canvas['width']` and `canvas['height']`. -/
def htmlHead2 : String := "px;\n            height: "

/-- Between `canvas['height']` and `canvas['background']`. -/
def htmlHead3 : String :=
  "px;\n            overflow: hidden;\n            font-family: \x27Inter\x27, sans-serif;\n        \x7d\n        .canvas \x7b\n            width: 100%;\n            height: 100%;\n            background: "

/-- After `canvas['background']`, up to and including the opening canvas div. -/
def htmlHead4 : String :=
  ";\n            position: relative;\n        \x7d\n        .element \x7b\n            position: absolute;\n        \x7d\n        .element-text \x7b\n            white-space: pre-wrap;\n            word-break: break-word;\n        \x7d\n        .element-image img \x7b\n            width: 100%;\n            height: 100%;\n            object-fit: contain;\n        \x7d\n    </style>\n</head>\n<body>\n    <div class=\"canvas\">\n"

/-- The closing lines appended at server.py line 102. -/
def footerStr : String := "    </div>\n</body>\n</html>"

/-- The document head built from the canvas dict: `canvas['width']`,
`canvas['height']`, `canvas['background']` are required lookups, evaluated
in that order by the f-string. -/
def buildHeader (canvas : Json) : Except String String :=
  match getItem canvas "width" with
  | .error e => .error e
  | .ok w =>
  match getItem canvas "height" with
  | .error e => .error e
  | .ok h =>
  match getItem canvas "background" with
  | .error e => .error e
  | .ok bg =>
    .ok (htmlHead1 ++ pyStr w ++ htmlHead2 ++ pyStr h ++ htmlHead3 ++ pyStr bg ++ htmlHead4)

/-- The base positioning style of server.py line 78; `el['x']`, `el['y']`,
`el['width']`, `el['height']` are required lookups. -/
def elementStyle0 (el : Json) : Except String String :=
  match getItem el "x" with
  | .error e => .error e
  | .ok xv =>
  match getItem el "y" with
  | .error e => .error e
  | .ok yv =>
  match getItem el "width" with
  | .error e => .error e
  | .ok wv =>
  match getItem el "height" with
  | .error e => .error e
  | .ok hv =>
    .ok ("left: " ++ pyStr xv ++ "px; top: " ++ pyStr yv ++ "px; width: " ++ pyStr wv
      ++ "px; height: " ++ pyStr hv ++ "px;")

/-- The text block of server.py lines 80-86. -/
def textDiv (el : Json) (style0 : String) : String :=
  let style := style0
    ++ " font-size: " ++ pyStr (Json.getD el "fontSize" (.num "48")) ++ "px;"
    ++ " font-weight: " ++ pyStr (Json.getD el "fontWeight" (.num "700")) ++ ";"
    ++ " color: " ++ pyStr (Json.getD el "color" (.str "#ffffff")) ++ ";"
    ++ " font-family: " ++ pyStr (Json.getD el "fontFamily" (.str "Inter")) ++ ";"
  "        <div class=\"element element-text\" style=\"" ++ style ++ "\">"
    ++ pyStr (Json.getD el "content" (.str "")) ++ "</div>\n"

/-- The image block of server.py line 95. -/
def imageDiv (style0 src : String) : String :=
  "        <div class=\"element element-image\" style=\"" ++ style0
    ++ "\"><img src=\"" ++ src ++ "\"></div>\n"

/-- The shape block of server.py lines 97-100. -/
def shapeDiv (el : Json) (style0 : String) : String :=
  let style := style0
    ++ " background: " ++ pyStr (Json.getD el "color" (.str "#4ecca3")) ++ ";"
    ++ " border-radius: " ++ pyStr (Json.getD el "borderRadius" (.str "0")) ++ ";"
  "        <div class=\"element element-shape\" style=\"" ++ style ++ "\"></div>\n"

/-- Source resolution of server.py lines 90-94: `assetPath`, when truthy,
is joined under the assets root; otherwise `src` is used, joined under the
assets root unless it is a `data:` or `file://` reference.  No existence
check is performed.  A non-string in the used slot raises. -/
def imageSrc (el : Json) : Except String String :=
  let ap := Json.getKey el "assetPath"
  if Json.optTruthy ap then
    match ap with
    | some (.str p) => .ok ("file://" ++ pyJoin ASSETS_DIR p)
    | _ => .error "TypeError: unsupported operand type for /"
  else
    match Json.getD el "src" (.str "") with
    | .str s =>
      if strStarts s "data:" || strStarts s "file://" then .ok s
      else .ok ("file://" ++ pyJoin ASSETS_DIR s)
    | _ => .error "AttributeError: object has no attribute startswith"

/-- Python equality between a JSON value and a string literal, as in
`el["type"] == "text"` (false for any non-string value). -/
def jsonEqStr (j : Json) (s : String) : Bool :=
  match j with
  | .str t => t == s
  | _ => false

/-- One loop iteration of server.py lines 77-100: `some` a block for the
three known types, `none` (no output) for any other type value. -/
def elementDiv (el : Json) : Except String (Option String) :=
  match elementStyle0 el with
  | .error e => .error e
  | .ok style0 =>
  match getItem el "type" with
  | .error e => .error e
  | .ok ty =>
    if jsonEqStr ty "text" then .ok (some (textDiv el style0))
    else if jsonEqStr ty "image" then
      match imageSrc el with
      | .error e => .error e
      | .ok src => .ok (some (imageDiv style0 src))
    else if jsonEqStr ty "shape" then .ok (some (shapeDiv el style0))
    else .ok none

/-- The whole element loop, concatenating the produced blocks in input
order. -/
def elementDivs : List Json → Except String (List String)
  | [] => .ok []
  | el :: rest =>
    match elementDiv el with
    | .error e => .error e
    | .ok d =>
      match elementDivs rest with
      | .error e => .error e
      | .ok ds => .ok (d.toList ++ ds)

/-- The block a single element contributes when its rendering succeeds
(`none` both for unknown types and, vacuously, for failed elements). -/
def divOpt (el : Json) : Option String :=
  match elementDiv el with
  | .ok v => v
  | .error _ => none

/-- Whether an element carries one of the three recognized type tags. -/
def knownType (el : Json) : Bool :=
  match Json.getKey el "type" with
  | some ty => jsonEqStr ty "text" || jsonEqStr ty "image" || jsonEqStr ty "shape"
  | none => false

/-- Extraction of the element sequence: `template_data["elements"]`
followed by the start of the `for` loop. -/
def getElementsOf (t : Json) : Except String (List Json) :=
  match getItem t "elements" with
  | .error e => .error e
  | .ok v => pyIter v

/-- server.py `generate_thumbnail_from_template`, up to the HTML string it
hands to the headless browser (the Playwright screenshot step is an
external collaborator and is kept outside the model). -/
def generate_thumbnail_from_template (t : Json) : Except String String :=
  match getItem t "canvas" with
  | .error e => .error e
  | .ok canvas =>
  match getItem t "elements" with
  | .error e => .error e
  | .ok elementsV =>
  match buildHeader canvas with
  | .error e => .error e
  | .ok hdr =>
  match pyIter elementsV with
  | .error e => .error e
  | .ok els =>
  match elementDivs els with
  | .error e => .error e
  | .ok ds => .ok (hdr ++ String.join ds ++ footerStr)

/-! ## Helper lemmas about the element loop -/

theorem getKey_of_getItem (j : Json) (k : String) (v : Json)
    (h : getItem j k = .ok v) : Json.getKey j k = some v := by
  cases j with
  | obj kvs =>
    simp only [getItem, Json.getKey] at h ⊢
    split at h
    · rename_i w hw
      injection h with h
      subst h
      exact hw
    · cases h
  | null => simp [getItem] at h
  | bool b => simp [getItem] at h
  | num s => simp [getItem] at h
  | str s => simp [getItem] at h
  | arr xs => simp [getItem] at h

theorem getItem_of_getKey (j : Json) (k : String) (v : Json)
    (h : Json.getKey j k = some v) : getItem j k = .ok v := by
  cases j with
  | obj kvs =>
    simp only [Json.getKey] at h
    simp only [getItem]
    rw [h]
  | null => simp [Json.getKey] at h
  | bool b => simp [Json.getKey] at h
  | num s => simp [Json.getKey] at h
  | str s => simp [Json.getKey] at h
  | arr xs => simp [Json.getKey] at h

theorem getItem_error_of_getKey_none (j : Json) (k : String)
    (h : Json.getKey j k = none) : ∃ e, getItem j k = .error e := by
  cases j with
  | obj kvs =>
    simp only [Json.getKey] at h
    refine ⟨"KeyError: " ++ k, ?_⟩
    simp only [getItem]
    rw [h]
  | null => exact ⟨_, rfl⟩
  | bool b => exact ⟨_, rfl⟩
  | num s => exact ⟨_, rfl⟩
  | str s => exact ⟨_, rfl⟩
  | arr xs => exact ⟨_, rfl⟩

theorem elementDiv_isSome (el : Json) (v : Option String)
    (h : elementDiv el = .ok v) : v.isSome = knownType el := by
  unfold elementDiv at h
  split at h
  · cases h
  · rename_i style0 hs
    split at h
    · cases h
    · rename_i ty ht
      have hk : Json.getKey el "type" = some ty := getKey_of_getItem el "type" ty ht
      simp only [knownType, hk]
      by_cases h1 : jsonEqStr ty "text" = true
      · rw [if_pos h1] at h
        injection h with h
        subst h
        simp [h1]
      · rw [if_neg h1] at h
        by_cases h2 : jsonEqStr ty "image" = true
        · rw [if_pos h2] at h
          split at h
          · cases h
          · injection h with h
            subst h
            simp [h2]
        · rw [if_neg h2] at h
          by_cases h3 : jsonEqStr ty "shape" = true
          · rw [if_pos h3] at h
            injection h with h
            subst h
            simp [h3]
          · rw [if_neg h3] at h
            injection h with h
            subst h
            simp only [Option.isSome_none]
            simp only [Bool.not_eq_true] at h1 h2 h3
            rw [h1, h2, h3]
            rfl

theorem elementDivs_eq_filterMap (els : List Json) (ds : List String)
    (h : elementDivs els = .ok ds) : ds = els.filterMap divOpt := by
  induction els generalizing ds with
  | nil =>
    unfold elementDivs at h
    injection h with h
    subst h
    rfl
  | cons el rest ih =>
    unfold elementDivs at h
    split at h
    · cases h
    · rename_i d hd
      split at h
      · cases h
      · rename_i ds2 hr
        injection h with h
        subst h
        have h2 := ih ds2 hr
        subst h2
        have hdiv : divOpt el = d := by unfold divOpt; rw [hd]
        cases d with
        | none => simp [List.filterMap_cons, hdiv]
        | some s => simp [List.filterMap_cons, hdiv]

theorem elementDivs_ok_of_mem (els : List Json) (ds : List String)
    (h : elementDivs els = .ok ds) :
    ∀ el ∈ els, ∃ v, elementDiv el = .ok v := by
  induction els generalizing ds with
  | nil => intro el hel; cases hel
  | cons hd rest ih =>
    intro el hel
    unfold elementDivs at h
    split at h
    · cases h
    · rename_i d hd1
      split at h
      · cases h
      · rename_i ds2 hr
        cases hel with
        | head => exact ⟨d, hd1⟩
        | tail _ hmem => exact ih ds2 hr el hmem

theorem elementDivs_error_of_mem (els : List Json) (el : Json) (e : String)
    (hmem : el ∈ els) (herr : elementDiv el = .error e) :
    ∃ e2, elementDivs els = .error e2 := by
  induction els with
  | nil => cases hmem
  | cons hd rest ih =>
    cases hmem with
    | head =>
      refine ⟨e, ?_⟩
      unfold elementDivs
      rw [herr]
    | tail _ hmem2 =>
      obtain ⟨e2, he2⟩ := ih hmem2
      unfold elementDivs
      cases hd1 : elementDiv hd with
      | error e3 => exact ⟨e3, rfl⟩
      | ok d => rw [he2]; exact ⟨e2, rfl⟩

/-- C1: for every template the renderer succeeds on, the produced HTML
document is a head followed by exactly the blocks of the input elements in
input order — one absolutely-positioned block per element whose type is
text, image or shape, and no block for an element of any other type —
followed by the fixed footer. -/
theorem c1_one_block_per_known_element (t : Json) (html : String)
    (h : generate_thumbnail_from_template t = .ok html) :
    ∃ hdr els,
      getElementsOf t = .ok els ∧
      html = hdr ++ String.join (els.filterMap divOpt) ++ footerStr ∧
      ∀ el ∈ els, (divOpt el).isSome = knownType el := by
  unfold generate_thumbnail_from_template at h
  split at h
  · cases h
  · rename_i canvas hc
    split at h
    · cases h
    · rename_i ev hev
      split at h
      · cases h
      · rename_i hdr hh
        split at h
        · cases h
        · rename_i els hels
          split at h
          · cases h
          · rename_i ds hds
            injection h with h
            subst h
            refine ⟨hdr, els, ?_, ?_, ?_⟩
            · simp only [getElementsOf, hev]
              exact hels
            · rw [elementDivs_eq_filterMap els ds hds]
            · intro el hmem
              obtain ⟨v, hv⟩ := elementDivs_ok_of_mem els ds hds el hmem
              have hi := elementDiv_isSome el v hv
              unfold divOpt
              rw [hv]
              exact hi

/-- A concrete template with a text element, an element of unrecognized
type and a shape element. -/
def c1T : Json :=
  Json.obj [("canvas", Json.obj [("width", Json.num "640"), ("height", Json.num "360"),
      ("background", Json.str "#123")]),
    ("elements", Json.arr [
      Json.obj [("type", Json.str "text"), ("x", Json.num "10"), ("y", Json.num "20"),
        ("width", Json.num "300"), ("height", Json.num "80"), ("content", Json.str "Hello")],
      Json.obj [("type", Json.str "mystery"), ("x", Json.num "0"), ("y", Json.num "0"),
        ("width", Json.num "1"), ("height", Json.num "1")],
      Json.obj [("type", Json.str "shape"), ("x", Json.num "5"), ("y", Json.num "6"),
        ("width", Json.num "7"), ("height", Json.num "8")]])]

/-- The document the renderer produces for `c1T`. -/
def c1Html : String := (generate_thumbnail_from_template c1T).toOption.getD ""

/-- Witness for C1 at the concrete template `c1T`. -/
theorem c1_witness :
    generate_thumbnail_from_template c1T = .ok c1Html ∧
    ∃ hdr els,
      getElementsOf c1T = .ok els ∧
      c1Html = hdr ++ String.join (els.filterMap divOpt) ++ footerStr ∧
      ∀ el ∈ els, (divOpt el).isSome = knownType el :=
  ⟨rfl, c1_one_block_per_known_element c1T c1Html rfl⟩

/-! ## C2: unresolvable image sources -/

/-- An image element whose source names a file that exists nowhere. -/
def c2El : Json :=
  Json.obj [("type", Json.str "image"), ("x", Json.num "0"), ("y", Json.num "0"),
    ("width", Json.num "10"), ("height", Json.num "10"),
    ("src", Json.str "missing.png")]

def c2Style : String := "left: 0px; top: 0px; width: 10px; height: 10px;"

/-- C2 counterexample: for an image element whose source resolves to no
existing file (and is not a data: reference), the renderer does NOT skip
the element — the output contains one image block for it, pointing at the
nonexistent joined path. -/
theorem c2_counterexample :
    ("missing.png".data.isPrefixOf "data:".data) = false ∧
    elementDivs [c2El] = .ok
      ["        <div class=\"element element-image\" style=\"left: 0px; top: 0px; width: 10px; height: 10px;\"><img src=\"file:///srv/app/assets/missing.png\"></div>\n"] :=
  ⟨rfl, rfl⟩

/-- C2 amended: an image element with the required geometry keys, a falsy
(or absent) assetPath and a string src that is neither a data: nor a
file:// reference always yields exactly one image block whose source is
the file:// URL of the assets root joined with src — no existence check,
no skipping, no warning. -/
theorem c2_amended (el : Json) (style0 src : String)
    (h1 : elementStyle0 el = .ok style0)
    (h2 : Json.getKey el "type" = some (Json.str "image"))
    (h3 : Json.optTruthy (Json.getKey el "assetPath") = false)
    (h4 : Json.getD el "src" (Json.str "") = Json.str src)
    (h5 : strStarts src "data:" = false)
    (h6 : strStarts src "file://" = false) :
    elementDiv el = .ok (some (imageDiv style0 ("file://" ++ pyJoin ASSETS_DIR src))) := by
  have ht : getItem el "type" = .ok (Json.str "image") := getItem_of_getKey _ _ _ h2
  simp [elementDiv, h1, ht, jsonEqStr, imageSrc, h3, h4, h5, h6]

/-- Witness for C2's amended theorem at the concrete element `c2El`. -/
theorem c2_witness :
    elementStyle0 c2El = .ok c2Style ∧
    Json.getKey c2El "type" = some (Json.str "image") ∧
    Json.optTruthy (Json.getKey c2El "assetPath") = false ∧
    Json.getD c2El "src" (Json.str "") = Json.str "missing.png" ∧
    strStarts "missing.png" "data:" = false ∧
    strStarts "missing.png" "file://" = false ∧
    elementDiv c2El = .ok (some (imageDiv c2Style ("file://" ++ pyJoin ASSETS_DIR "missing.png"))) :=
  ⟨rfl, rfl, rfl, rfl, rfl, rfl,
    c2_amended c2El c2Style "missing.png" rfl rfl rfl rfl rfl rfl⟩

/-! ## server.py: the HTTP handler -/

/-- An HTTP response sent by the handler: status, content type, body (PNG
bytes are carried as an opaque string). -/
structure HttpResponse where
  status : Nat
  contentType : String
  body : String

/-- server.py `EditorHandler.do_POST`.  The request body is given as the
outcome of `json.loads(body)` — `Except.error` when the body is malformed
JSON.  Since `json.loads` is called OUTSIDE the try block, a parse failure
propagates out of the handler (modelled as `Except.error` of the whole
call); only failures of the generation step inside the try produce a 500
response.  The Playwright screenshot of the generated HTML is the external
collaborator `shot`. -/
def do_POST (shot : String → String) (path : String) (body : Except String Json) :
    Except String HttpResponse :=
  if path == "/api/export" then
    match body with
    | .error e => .error e
    | .ok t =>
      match generate_thumbnail_from_template t with
      | .ok html => .ok ⟨200, "image/png", shot html⟩
      | .error e => .ok ⟨500, "text/html", e⟩
  else .ok ⟨404, "text/html", "Not found"⟩

/-- A degenerate screenshot function for concrete instantiations. -/
def shot0 : String → String := fun _ => ""

/-- C3 counterexample: a POST to /api/export whose body is malformed JSON
(json.loads raises) makes the handler itself raise — no response, neither
200 nor 500, is produced, contrary to the claim. -/
theorem c3_counterexample :
    do_POST shot0 "/api/export" (.error "Expecting value: line 1 column 1 (char 0)") =
      .error "Expecting value: line 1 column 1 (char 0)" := rfl

/-- C3 amended: for every /api/export POST whose body PARSES as JSON, the
handler responds 200 with the screenshot of the rendered HTML, or 500
carrying the error message when generation fails (this covers every
template error such as missing canvas fields); a malformed JSON body
instead escapes the handler as an unhandled exception. -/
theorem c3_amended (shot : String → String) (t : Json) :
    (∃ html, generate_thumbnail_from_template t = .ok html ∧
      do_POST shot "/api/export" (.ok t) = .ok ⟨200, "image/png", shot html⟩) ∨
    (∃ e, generate_thumbnail_from_template t = .error e ∧
      do_POST shot "/api/export" (.ok t) = .ok ⟨500, "text/html", e⟩) := by
  cases hg : generate_thumbnail_from_template t with
  | ok html =>
    left
    refine ⟨html, rfl, ?_⟩
    simp [do_POST, hg]
  | error e =>
    right
    refine ⟨e, rfl, ?_⟩
    simp [do_POST, hg]

/-! ## C10: required-field lookups have no defaults -/

theorem elementStyle0_error (el : Json)
    (h : Json.getKey el "x" = none ∨ Json.getKey el "y" = none ∨
      Json.getKey el "width" = none ∨ Json.getKey el "height" = none) :
    ∃ e, elementStyle0 el = .error e := by
  rcases h with h | h | h | h
  · obtain ⟨e, he⟩ := getItem_error_of_getKey_none el "x" h
    exact ⟨e, by simp [elementStyle0, he]⟩
  · cases hx : getItem el "x" with
    | error e => exact ⟨e, by simp [elementStyle0, hx]⟩
    | ok xv =>
      obtain ⟨e, he⟩ := getItem_error_of_getKey_none el "y" h
      exact ⟨e, by simp [elementStyle0, hx, he]⟩
  · cases hx : getItem el "x" with
    | error e => exact ⟨e, by simp [elementStyle0, hx]⟩
    | ok xv =>
      cases hy : getItem el "y" with
      | error e => exact ⟨e, by simp [elementStyle0, hx, hy]⟩
      | ok yv =>
        obtain ⟨e, he⟩ := getItem_error_of_getKey_none el "width" h
        exact ⟨e, by simp [elementStyle0, hx, hy, he]⟩
  · cases hx : getItem el "x" with
    | error e => exact ⟨e, by simp [elementStyle0, hx]⟩
    | ok xv =>
      cases hy : getItem el "y" with
      | error e => exact ⟨e, by simp [elementStyle0, hx, hy]⟩
      | ok yv =>
        cases hw : getItem el "width" with
        | error e => exact ⟨e, by simp [elementStyle0, hx, hy, hw]⟩
        | ok wv =>
          obtain ⟨e, he⟩ := getItem_error_of_getKey_none el "height" h
          exact ⟨e, by simp [elementStyle0, hx, hy, hw, he]⟩

theorem elementDiv_error_of_style0 (el : Json) (e : String)
    (h : elementStyle0 el = .error e) : elementDiv el = .error e := by
  simp [elementDiv, h]

theorem buildHeader_error (canvas : Json)
    (h : Json.getKey canvas "width" = none ∨ Json.getKey canvas "height" = none ∨
      Json.getKey canvas "background" = none) :
    ∃ e, buildHeader canvas = .error e := by
  rcases h with h | h | h
  · obtain ⟨e, he⟩ := getItem_error_of_getKey_none canvas "width" h
    exact ⟨e, by simp [buildHeader, he]⟩
  · cases hw : getItem canvas "width" with
    | error e => exact ⟨e, by simp [buildHeader, hw]⟩
    | ok wv =>
      obtain ⟨e, he⟩ := getItem_error_of_getKey_none canvas "height" h
      exact ⟨e, by simp [buildHeader, hw, he]⟩
  · cases hw : getItem canvas "width" with
    | error e => exact ⟨e, by simp [buildHeader, hw]⟩
    | ok wv =>
      cases hh : getItem canvas "height" with
      | error e => exact ⟨e, by simp [buildHeader, hw, hh]⟩
      | ok hv =>
        obtain ⟨e, he⟩ := getItem_error_of_getKey_none canvas "background" h
        exact ⟨e, by simp [buildHeader, hw, hh, he]⟩

theorem getElementsOf_ok (t : Json) (els : List Json)
    (h : getElementsOf t = .ok els) :
    ∃ ev, getItem t "elements" = .ok ev ∧ pyIter ev = .ok els := by
  unfold getElementsOf at h
  split at h
  · cases h
  · rename_i ev hev
    exact ⟨ev, hev, h⟩

/-- C10: a template lacking the top-level canvas or elements key, or a
canvas width/height/background, or containing a known-type element lacking
one of x, y, width, height, makes thumbnail generation raise a key-lookup
error, and the corresponding /api/export request answers 500, not a PNG. -/
theorem c10_required_fields (t : Json)
    (h : Json.getKey t "canvas" = none ∨ Json.getKey t "elements" = none ∨
      (∃ c, Json.getKey t "canvas" = some c ∧
        (Json.getKey c "width" = none ∨ Json.getKey c "height" = none ∨
         Json.getKey c "background" = none)) ∨
      (∃ els, getElementsOf t = .ok els ∧ ∃ el ∈ els, knownType el = true ∧
        (Json.getKey el "x" = none ∨ Json.getKey el "y" = none ∨
         Json.getKey el "width" = none ∨ Json.getKey el "height" = none))) :
    ∃ msg, generate_thumbnail_from_template t = .error msg ∧
      ∀ shot, do_POST shot "/api/export" (.ok t) = .ok ⟨500, "text/html", msg⟩ := by
  have hgen : ∃ msg, generate_thumbnail_from_template t = .error msg := by
    rcases h with h | h | h | h
    · obtain ⟨e, he⟩ := getItem_error_of_getKey_none t "canvas" h
      exact ⟨e, by simp [generate_thumbnail_from_template, he]⟩
    · cases hc : getItem t "canvas" with
      | error e => exact ⟨e, by simp [generate_thumbnail_from_template, hc]⟩
      | ok c =>
        obtain ⟨e, he⟩ := getItem_error_of_getKey_none t "elements" h
        exact ⟨e, by simp [generate_thumbnail_from_template, hc, he]⟩
    · obtain ⟨c, hck, hmiss⟩ := h
      have hc : getItem t "canvas" = .ok c := getItem_of_getKey _ _ _ hck
      cases hev : getItem t "elements" with
      | error e => exact ⟨e, by simp [generate_thumbnail_from_template, hc, hev]⟩
      | ok ev =>
        obtain ⟨e, he⟩ := buildHeader_error c hmiss
        exact ⟨e, by simp [generate_thumbnail_from_template, hc, hev, he]⟩
    · obtain ⟨els, hels, el, hmem, _, hmiss⟩ := h
      obtain ⟨ev, hev, hiter⟩ := getElementsOf_ok t els hels
      cases hc : getItem t "canvas" with
      | error e => exact ⟨e, by simp [generate_thumbnail_from_template, hc]⟩
      | ok c =>
        cases hb : buildHeader c with
        | error e => exact ⟨e, by simp [generate_thumbnail_from_template, hc, hev, hb]⟩
        | ok hdr =>
          obtain ⟨e, he⟩ := elementStyle0_error el hmiss
          have hde := elementDiv_error_of_style0 el e he
          obtain ⟨e2, he2⟩ := elementDivs_error_of_mem els el e hmem hde
          exact ⟨e2, by
            simp [generate_thumbnail_from_template, hc, hev, hb, hiter, he2]⟩
  obtain ⟨msg, hmsg⟩ := hgen
  refine ⟨msg, hmsg, fun shot => ?_⟩
  simp [do_POST, hmsg]

/-- A template whose single shape element lacks the height key. -/
def c10T : Json :=
  Json.obj [("canvas", Json.obj [("width", Json.num "1280"), ("height", Json.num "720"),
      ("background", Json.str "#000")]),
    ("elements", Json.arr [Json.obj [("type", Json.str "shape"), ("x", Json.num "0"),
      ("y", Json.num "0"), ("width", Json.num "100")]])]

/-- Witness for C10 at the concrete template `c10T`. -/
theorem c10_witness :
    (∃ els, getElementsOf c10T = .ok els ∧ ∃ el ∈ els, knownType el = true ∧
      (Json.getKey el "x" = none ∨ Json.getKey el "y" = none ∨
       Json.getKey el "width" = none ∨ Json.getKey el "height" = none)) ∧
    ∃ msg, generate_thumbnail_from_template c10T = .error msg ∧
      ∀ shot, do_POST shot "/api/export" (.ok c10T) = .ok ⟨500, "text/html", msg⟩ := by
  have hcase : ∃ els, getElementsOf c10T = .ok els ∧ ∃ el ∈ els, knownType el = true ∧
      (Json.getKey el "x" = none ∨ Json.getKey el "y" = none ∨
       Json.getKey el "width" = none ∨ Json.getKey el "height" = none) := by
    refine ⟨_, rfl, _, List.Mem.head _, rfl, ?_⟩
    exact Or.inr (Or.inr (Or.inr rfl))
  exact ⟨hcase, c10_required_fields c10T (Or.inr (Or.inr (Or.inr hcase)))⟩

/-! ## C8: the concrete shape-element example -/

/-- Number of positions of `s` at which `pat` occurs (one linear scan). -/
def countSubAux (pat : List Char) : List Char → Nat
  | [] => if pat.isPrefixOf ([] : List Char) then 1 else 0
  | c :: cs => (if pat.isPrefixOf (c :: cs) then 1 else 0) + countSubAux pat cs

/-- Number of occurrences of `pat` as a substring of `s`. -/
def countSub (s pat : String) : Nat := countSubAux pat.data s.data

/-- Whether `pat` occurs as a substring of `s`. -/
def containsSub (s pat : String) : Bool := !(countSub s pat == 0)

/-- The template of the spec's worked example. -/
def c8Template : Json :=
  Json.obj [("canvas", Json.obj [("width", Json.num "1280"), ("height", Json.num "720"),
      ("background", Json.str "#000")]),
    ("elements", Json.arr [Json.obj [("type", Json.str "shape"), ("x", Json.num "0"),
      ("y", Json.num "0"), ("width", Json.num "100"), ("height", Json.num "100"),
      ("color", Json.str "#fff")]])]

/-- The document rendered for `c8Template`. -/
def c8Doc : String := (generate_thumbnail_from_template c8Template).toOption.getD ""

set_option maxRecDepth 10000 in
/-- C8: the example template renders successfully; the document declares
body width 1280px and height 720px, contains exactly one element block,
which is a shape block whose style carries background #fff and the default
corner radius 0. -/
theorem c8_shape_example :
    generate_thumbnail_from_template c8Template = .ok c8Doc ∧
    containsSub c8Doc "width: 1280px;" = true ∧
    containsSub c8Doc "height: 720px;" = true ∧
    countSub c8Doc "<div class=\"element" = 1 ∧
    countSub c8Doc "element-shape" = 1 ∧
    countSub c8Doc "background: #fff;" = 1 ∧
    countSub c8Doc "border-radius: 0;" = 1 :=
  ⟨rfl, rfl, rfl, rfl, rfl, rfl, rfl⟩

/-! ## main.py: the asset resolver

The assets directory is modelled as the list of all filesystem nodes under
the assets root, as relative paths in traversal order (the order
`Path.rglob` enumerates them). -/

structure FSEntry where
  path : String
  isFile : Bool

structure FS where
  entries : List FSEntry

/-- Glob matching of a pattern against a file name, supporting the `*` and
`?` wildcards (character classes are not used by the repository).  The
first argument is recursion fuel — every step shrinks pattern+name, so
`globMatch` below always supplies enough; fuel keeps the recursion
structural so that terms reduce inside the kernel. -/
def globMatchFuel : Nat → List Char → List Char → Bool
  | 0, _, _ => false
  | _ + 1, [], [] => true
  | f + 1, '*' :: ps, [] => globMatchFuel f ps []
  | _ + 1, _ :: _, [] => false
  | _ + 1, [], _ :: _ => false
  | f + 1, '*' :: ps, c :: cs => globMatchFuel f ps (c :: cs) || globMatchFuel f ('*' :: ps) cs
  | f + 1, '?' :: ps, _ :: cs => globMatchFuel f ps cs
  | f + 1, p :: ps, c :: cs => (p == c) && globMatchFuel f ps cs

/-- Glob matching with sufficient fuel. -/
def globMatch (ps cs : List Char) : Bool :=
  globMatchFuel (ps.length + cs.length + 1) ps cs

/-- Splitting a character list at every occurrence of `c` (like
`str.split`, keeping empty groups). -/
def splitChar (c : Char) : List Char → List (List Char)
  | [] => [[]]
  | x :: xs =>
    match splitChar c xs with
    | [] => if x == c then [[], []] else [[x]]
    | g :: gs => if x == c then [] :: g :: gs else (x :: g) :: gs

/-- The file-name component after the last path separator. -/
def lastComponent (p : String) : String :=
  String.mk ((splitChar '/' p.data).getLastD [])

/-- Recursive glob `assets_dir.rglob(pat)` for a pattern without a
separator: every node whose name matches, as a joined path, in traversal
order. -/
def rglob (fs : FS) (assets_dir : String) (pat : String) : List String :=
  (fs.entries.filter (fun e => globMatch pat.data (lastComponent e.path).data)).map
    (fun e => pyJoin assets_dir e.path)

/-- The fixed ordered extension fallback list of main.py line 131. -/
def EXTENSIONS : List String := [".png", ".jpg", ".jpeg", ".svg", ".webp"]

/-- The fallback loop of main.py lines 130-134: the matches of the first
extension that yields any, else the empty list. -/
def tryExtensions (fs : FS) (assets_dir name : String) : List String → List String
  | [] => []
  | ext :: rest =>
    let m := rglob fs assets_dir (name ++ ext)
    if m.isEmpty then tryExtensions fs assets_dir name rest else m

/-- main.py `find_asset`.  The second component of the result collects the
warning lines printed to stdout (abbreviated to one line; the code prints
the multiple-match warning only, never one for a miss). -/
def find_asset (name : String) (assets_dir : String) (fs : FS) :
    Option String × List String :=
  if strContains name '/' then
    let full := pyJoin assets_dir name
    (if fs.entries.any (fun e => pyJoin assets_dir e.path == full) then some full
     else none, [])
  else
    let matches0 := rglob fs assets_dir name
    let ms :=
      if matches0.isEmpty && !(strContains name '.') then
        tryExtensions fs assets_dir name EXTENSIONS
      else matches0
    match ms with
    | [] => (none, [])
    | [m] => (some m, [])
    | m :: _ :: _ => (some m, ["Warning: Multiple matches for " ++ name])

/-- C5: a name containing a path separator is resolved by a single direct
existence check of the joined path — no recursive search. -/
theorem c5_direct_path (name assets_dir : String) (fs : FS)
    (h : strContains name '/' = true) :
    find_asset name assets_dir fs =
      (if fs.entries.any (fun e => pyJoin assets_dir e.path == pyJoin assets_dir name)
        then some (pyJoin assets_dir name) else none, []) := by
  simp [find_asset, h]

def c5FS : FS := FS.mk [FSEntry.mk "logos/brand.png" true, FSEntry.mk "logos" false]

/-- Witness for C5 at a concrete name and directory tree. -/
theorem c5_witness :
    strContains "logos/brand.png" '/' = true ∧
    find_asset "logos/brand.png" ASSETS_DIR c5FS =
      (if c5FS.entries.any
          (fun e => pyJoin ASSETS_DIR e.path == pyJoin ASSETS_DIR "logos/brand.png")
        then some (pyJoin ASSETS_DIR "logos/brand.png") else none, []) :=
  ⟨rfl, c5_direct_path "logos/brand.png" ASSETS_DIR c5FS rfl⟩

theorem tryExtensions_spec (fs : FS) (assets_dir name : String) (exts : List String) :
    tryExtensions fs assets_dir name exts =
      match exts.find? (fun ext => !(rglob fs assets_dir (name ++ ext)).isEmpty) with
      | some ext => rglob fs assets_dir (name ++ ext)
      | none => [] := by
  induction exts with
  | nil => rfl
  | cons ext rest ih =>
    unfold tryExtensions
    by_cases hm : (rglob fs assets_dir (name ++ ext)).isEmpty = true
    · simp only [hm, if_true, List.find?_cons, Bool.not_true]
      exact ih
    · simp only [Bool.not_eq_true] at hm
      simp [hm, List.find?_cons]

/-- C4: for a separator-free, extensionless name with no exact recursive
match, resolution tries the fixed extension list in order and returns the
first match of the first extension yielding any, or not-found when none
does. -/
theorem c4_extension_fallback (name assets_dir : String) (fs : FS)
    (h1 : strContains name '/' = false)
    (h2 : strContains name '.' = false)
    (h3 : rglob fs assets_dir name = []) :
    (find_asset name assets_dir fs).1 =
      match EXTENSIONS.find? (fun ext => !(rglob fs assets_dir (name ++ ext)).isEmpty) with
      | some ext => (rglob fs assets_dir (name ++ ext)).head?
      | none => none := by
  unfold find_asset
  simp only [h1, Bool.false_eq_true, if_false, h3, List.isEmpty_nil, h2, Bool.not_false,
    Bool.and_self, if_true, tryExtensions_spec]
  cases hf : EXTENSIONS.find? (fun ext => !(rglob fs assets_dir (name ++ ext)).isEmpty) with
  | none => rfl
  | some ext =>
    have hne := List.find?_some hf
    simp only [Bool.not_eq_true', List.isEmpty_eq_false] at hne
    cases hl : rglob fs assets_dir (name ++ ext) with
    | nil => exact absurd hl hne
    | cons m ms =>
      cases ms with
      | nil => simp [hl]
      | cons m2 ms2 => simp [hl]

def c4FS : FS := FS.mk [FSEntry.mk "img" false, FSEntry.mk "img/logo.jpg" true]

/-- Witness for C4: the name logo has no direct match, .png yields nothing,
.jpg yields the file, which is returned. -/
theorem c4_witness :
    strContains "logo" '/' = false ∧
    strContains "logo" '.' = false ∧
    rglob c4FS ASSETS_DIR "logo" = [] ∧
    (find_asset "logo" ASSETS_DIR c4FS).1 =
      match EXTENSIONS.find? (fun ext => !(rglob c4FS ASSETS_DIR ("logo" ++ ext)).isEmpty) with
      | some ext => (rglob c4FS ASSETS_DIR ("logo" ++ ext)).head?
      | none => none :=
  ⟨rfl, rfl, rfl, c4_extension_fallback "logo" ASSETS_DIR c4FS rfl rfl rfl⟩

/-! ## server.py: get_all_assets (the /api/assets listing) -/

/-- Python `s.lower()` (over the character list). -/
def strLower (s : String) : String := String.mk (s.data.map Char.toLower)

/-- The pathlib `suffix` of a path: from the last dot of the final
component (empty when there is no dot or the dot is the leading
character). -/
def pySuffix (p : String) : String :=
  let name := (splitChar '/' p.data).getLastD []
  let rev := name.reverse
  let tl := rev.takeWhile (fun c => !(c == '.'))
  if tl.length == rev.length then ""
  else if tl.length + 1 == rev.length then ""
  else String.mk ('.' :: tl.reverse)

/-- The recognized image-extension set of server.py line 22. -/
def IMG_EXTENSIONS : List String := [".png", ".jpg", ".jpeg", ".svg", ".webp", ".gif"]

/-- server.py `get_all_assets`: the relative path of every regular file
under the assets root whose lowercased suffix is a recognized image
extension, sorted (Python `sorted` = lexicographic; `insertionSort` is
stable like Python's sort). -/
def get_all_assets (fs : FS) : List String :=
  List.insertionSort (fun a b => a ≤ b)
    ((fs.entries.filter
        (fun e => e.isFile && IMG_EXTENSIONS.contains (strLower (pySuffix e.path)))).map
      (fun e => e.path))

/-! ## server.py: the GET handler and path traversal

File serving touches paths outside the assets root, so here the disk is
modelled absolutely: `ServerFS` maps normalized absolute paths of regular
files to their contents.  The operating system resolves `.` and `..`
segments at lookup time; `normalizePath` performs that resolution, while
the handler itself (like pathlib) never normalizes the path string. -/

structure ServerFS where
  files : List (String × String)

/-- Resolution of `.` and `..` segments of an absolute path, as the OS
does at lookup time (`..` at the root stays at the root). -/
def normalizePath (p : String) : String :=
  let parts := splitChar '/' p.data
  let stack := parts.foldl
    (fun acc part =>
      if part.isEmpty || part == ['.'] then acc
      else if part == ['.', '.'] then acc.dropLast
      else acc ++ [part]) []
  String.mk ('/' :: List.intercalate ['/'] stack)

/-- Contents of the regular file designated by (the OS resolution of)
path `p`, when it exists. -/
def fsLookup (fs : ServerFS) (p : String) : Option String :=
  (fs.files.find? (fun kv => kv.1 == normalizePath p)).map (fun kv => kv.2)

/-- server.py `EditorHandler.serve_file`: 200 with the bytes, or the
except branch (500) when opening fails. -/
def serve_file (fs : ServerFS) (p : String) (contentType : String) : HttpResponse :=
  match fsLookup fs p with
  | some content => HttpResponse.mk 200 contentType content
  | none => HttpResponse.mk 500 "text/html" "No such file or directory"

/-- The `mimetypes.guess_type` result (with the handler's
application/octet-stream default) for the suffixes that can occur here. -/
def guessMime (p : String) : String :=
  let s := strLower (pySuffix p)
  if s == ".png" then "image/png"
  else if s == ".jpg" || s == ".jpeg" then "image/jpeg"
  else if s == ".svg" then "image/svg+xml"
  else if s == ".webp" then "image/webp"
  else if s == ".gif" then "image/gif"
  else if s == ".html" then "text/html"
  else if s == ".txt" then "text/plain"
  else if s == ".json" then "application/json"
  else "application/octet-stream"

/-- Python `json.dumps` of a string list, without the brackets (string
escaping is not modelled; asset paths contain none). -/
def jsonArrayAux : List String → String
  | [] => ""
  | [x] => "\"" ++ x ++ "\""
  | x :: y :: xs => "\"" ++ x ++ "\", " ++ jsonArrayAux (y :: xs)

/-- server.py `EditorHandler.do_GET` (the request path is already the path
component of the URL).  `fs` is the absolute view of the disk for file
serving, `afs` the assets-root-relative view used by the listing. -/
def do_GET (fs : ServerFS) (afs : FS) (reqPath : String) : HttpResponse :=
  if reqPath == "/" || reqPath == "/index.html" then
    serve_file fs (pyJoin EDITOR_DIR "index.html") "text/html"
  else if strStarts reqPath "/assets/" then
    let asset_path := pyJoin ASSETS_DIR (String.mk (reqPath.data.drop 8))
    match fsLookup fs asset_path with
    | some _ => serve_file fs asset_path (guessMime asset_path)
    | none => HttpResponse.mk 404 "text/html" "Asset not found"
  else if reqPath == "/api/assets" then
    HttpResponse.mk 200 "application/json" ("[" ++ jsonArrayAux (get_all_assets afs) ++ "]")
  else HttpResponse.mk 404 "text/html" "Not found"

/-- A disk with one file inside the assets root and a secret outside it. -/
def c9FS : ServerFS :=
  ServerFS.mk [("/srv/app/secret.txt", "top-secret"), ("/srv/app/assets/logo.png", "PNGDATA")]

def c9AFS : FS := FS.mk [FSEntry.mk "logo.png" true]

def c9Req : String := "/assets/../secret.txt"

/-- C9: a request path under /assets/ containing a dot-dot segment is
joined verbatim onto the assets root; the joined path resolves to an
existing regular file OUTSIDE the assets root and the server answers 200
with that file's contents — file serving is not confined to the assets
root. -/
theorem c9_path_traversal :
    strStarts c9Req "/assets/" = true ∧
    containsSub c9Req ".." = true ∧
    do_GET c9FS c9AFS c9Req = HttpResponse.mk 200 "text/plain" "top-secret" ∧
    strStarts (normalizePath (pyJoin ASSETS_DIR (String.mk (c9Req.data.drop 8))))
      (ASSETS_DIR ++ "/") = false :=
  ⟨rfl, rfl, rfl, rfl⟩

/-- C6: the asset listing is lexicographically sorted and contains exactly
the regular files under the assets root carrying a recognized image
extension (compared case-insensitively). -/
theorem c6_asset_listing (fs : FS) :
    (∀ sfs, do_GET sfs fs "/api/assets" =
      HttpResponse.mk 200 "application/json" ("[" ++ jsonArrayAux (get_all_assets fs) ++ "]")) ∧
    (get_all_assets fs).Sorted (fun a b => a ≤ b) ∧
    ∀ p, p ∈ get_all_assets fs ↔
      ∃ e ∈ fs.entries, e.isFile = true ∧
        IMG_EXTENSIONS.contains (strLower (pySuffix e.path)) = true ∧ p = e.path := by
  refine ⟨fun sfs => rfl, ?_, ?_⟩
  · exact List.sorted_insertionSort _ _
  · intro p
    unfold get_all_assets
    rw [List.mem_insertionSort, List.mem_map]
    constructor
    · rintro ⟨e, he, hp⟩
      rw [List.mem_filter] at he
      obtain ⟨hmem, hq⟩ := he
      rw [Bool.and_eq_true] at hq
      exact ⟨e, hmem, hq.1, hq.2, hp.symm⟩
    · rintro ⟨e, hmem, hfile, hext, hp⟩
      refine ⟨e, ?_, hp.symm⟩
      rw [List.mem_filter]
      exact ⟨hmem, by rw [Bool.and_eq_true]; exact ⟨hfile, hext⟩⟩

/-! ## main.py: the config loader

Python dataclasses perform no runtime type checking: a field annotated
`int` happily stores whatever value the YAML supplied.  The record fields
are therefore `Json`-typed, with the dataclass defaults; constructing a
section raises only for an unexpected keyword (or a non-mapping section). -/

def lookupKey (kvs : List (String × Json)) (k : String) : Option Json :=
  (kvs.find? (fun kv => kv.1 == k)).map (fun kv => kv.2)

structure OutputConfig where
  width : Json := Json.num "1280"
  height : Json := Json.num "720"
  filename : Json := Json.str "thumbnail.png"

structure GridConfig where
  rows : Json := Json.num "1"
  cols : Json := Json.num "3"

structure StyleConfig where
  background_color : Json := Json.str "#1a1a2e"
  title_color : Json := Json.str "#ffffff"
  subtitle_color : Json := Json.str "#e0e0e0"
  accent_color : Json := Json.str "#4ecca3"

structure ThumbnailConfig where
  output : OutputConfig := OutputConfig.mk (Json.num "1280") (Json.num "720") (Json.str "thumbnail.png")
  grid : GridConfig := GridConfig.mk (Json.num "1") (Json.num "3")
  title : Json := Json.null
  subtitle : Json := Json.null
  style : StyleConfig := StyleConfig.mk (Json.str "#1a1a2e") (Json.str "#ffffff") (Json.str "#e0e0e0") (Json.str "#4ecca3")
  difficulty : Json := Json.null
  avatar : Json := Json.null
  show_large_avatar : Json := Json.bool true
  brand_logo : Json := Json.null
  author_name : Json := Json.null
  concepts : Json := Json.arr []
  tech_logo : Json := Json.null

/-- `OutputConfig(**section)`: raises for an unexpected keyword, otherwise
stores each given value as-is (no type validation). -/
def mkOutputConfig (kvs : List (String × Json)) : Except String OutputConfig :=
  if kvs.all (fun kv => kv.1 == "width" || kv.1 == "height" || kv.1 == "filename") then
    .ok (OutputConfig.mk
      ((lookupKey kvs "width").getD (Json.num "1280"))
      ((lookupKey kvs "height").getD (Json.num "720"))
      ((lookupKey kvs "filename").getD (Json.str "thumbnail.png")))
  else .error "TypeError: unexpected keyword argument"

/-- `GridConfig(**section)`. -/
def mkGridConfig (kvs : List (String × Json)) : Except String GridConfig :=
  if kvs.all (fun kv => kv.1 == "rows" || kv.1 == "cols") then
    .ok (GridConfig.mk
      ((lookupKey kvs "rows").getD (Json.num "1"))
      ((lookupKey kvs "cols").getD (Json.num "3")))
  else .error "TypeError: unexpected keyword argument"

/-- `StyleConfig(**section)`. -/
def mkStyleConfig (kvs : List (String × Json)) : Except String StyleConfig :=
  if kvs.all (fun kv => kv.1 == "background_color" || kv.1 == "title_color" ||
      kv.1 == "subtitle_color" || kv.1 == "accent_color") then
    .ok (StyleConfig.mk
      ((lookupKey kvs "background_color").getD (Json.str "#1a1a2e"))
      ((lookupKey kvs "title_color").getD (Json.str "#ffffff"))
      ((lookupKey kvs "subtitle_color").getD (Json.str "#e0e0e0"))
      ((lookupKey kvs "accent_color").getD (Json.str "#4ecca3")))
  else .error "TypeError: unexpected keyword argument"

/-- One section of main.py lines 86-93: absent key keeps the default
record, a mapping is splatted into the constructor, anything else raises. -/
def sectionConfig {α : Type} (kvs : List (String × Json)) (k : String)
    (build : List (String × Json) → Except String α) (dflt : α) : Except String α :=
  match lookupKey kvs k with
  | none => .ok dflt
  | some (.obj skvs) => build skvs
  | some _ => .error "TypeError: argument after ** must be a mapping"

/-- The simple-field loop of main.py lines 96-108: each listed key present
in the data is copied into the record verbatim, in list order. -/
def applySimple (c0 : ThumbnailConfig) (kvs : List (String × Json)) : ThumbnailConfig :=
  let c1 := match lookupKey kvs "title" with
    | some v => { c0 with title := v } | none => c0
  let c2 := match lookupKey kvs "subtitle" with
    | some v => { c1 with subtitle := v } | none => c1
  let c3 := match lookupKey kvs "difficulty" with
    | some v => { c2 with difficulty := v } | none => c2
  let c4 := match lookupKey kvs "avatar" with
    | some v => { c3 with avatar := v } | none => c3
  let c5 := match lookupKey kvs "brand_logo" with
    | some v => { c4 with brand_logo := v } | none => c4
  let c6 := match lookupKey kvs "author_name" with
    | some v => { c5 with author_name := v } | none => c5
  let c7 := match lookupKey kvs "concepts" with
    | some v => { c6 with concepts := v } | none => c6
  let c8 := match lookupKey kvs "tech_logo" with
    | some v => { c7 with tech_logo := v } | none => c7
  match lookupKey kvs "show_large_avatar" with
    | some v => { c8 with show_large_avatar := v } | none => c8

/-- main.py `load_config_from_yaml`, applied to the already-parsed YAML
document. -/
def load_config_from_yaml (data : Json) : Except String ThumbnailConfig :=
  match data with
  | .obj kvs =>
    match sectionConfig kvs "output" mkOutputConfig (OutputConfig.mk (Json.num "1280") (Json.num "720") (Json.str "thumbnail.png")) with
    | .error e => .error e
    | .ok oc =>
    match sectionConfig kvs "grid" mkGridConfig (GridConfig.mk (Json.num "1") (Json.num "3")) with
    | .error e => .error e
    | .ok gc =>
    match sectionConfig kvs "style" mkStyleConfig (StyleConfig.mk (Json.str "#1a1a2e") (Json.str "#ffffff") (Json.str "#e0e0e0") (Json.str "#4ecca3")) with
    | .error e => .error e
    | .ok sc =>
      .ok (applySimple { output := oc, grid := gc, style := sc } kvs)
  | _ => .error "TypeError: data is not a mapping"

/-- A config whose output width is malformed (a non-numeric string). -/
def c7Data : Json := Json.obj [("output", Json.obj [("width", Json.str "abc")])]

/-- C7 counterexample: loading a config with a non-numeric output width
does NOT raise — it succeeds and silently stores the string in the
int-annotated field. -/
theorem c7_counterexample :
    load_config_from_yaml c7Data = .ok { output := { width := Json.str "abc" } } := rfl

/-- C7 amended: dataclass construction performs no type validation —
whatever value the output section maps width to is stored unchanged, and
loading succeeds; load-time errors arise only from structure (unexpected
section keys or non-mapping sections), never from value types. -/
theorem c7_amended (v : Json) :
    load_config_from_yaml (Json.obj [("output", Json.obj [("width", v)])]) =
      .ok { output := { width := v } } := rfl
